import Mathlib

/-!
Verification of the availability-sniper application (src/app.py) against its
natural-language specification.  The script's core — JSON record extraction,
count coercion, the zero-availability pre-filter, the four-level cascading
filter funnel, the TTL fetch cache, and the live-monitor alert decision — is
shallowly embedded below; each definition mirrors the source lines cited in
its doc comment.
-/

namespace Tennis

/-- JSON-like values as delivered by the upstream availability API.  Numbers
are modelled as integers (the API serves integer counts, as strings or
numbers); objects are association lists whose first binding for a key wins,
matching Python dict lookup on the unique-key dicts produced by JSON parsing. -/
inductive Json where
  | null
  | bool (b : Bool)
  | num (n : Int)
  | str (s : String)
  | list (xs : List Json)
  | obj (kvs : List (String × Json))
deriving Repr

/-- Python dict lookup `raw[key]` / `key in raw` on a parsed JSON object:
the first binding for the key, if any. -/
def lookupJ : List (String × Json) → String → Option Json
  | [], _ => none
  | (k, v) :: rest, key => if k = key then some v else lookupJ rest key

/-- The `isinstance(raw[key], list)` test of src/app.py line 38, returning the
payload when the value is a JSON list. -/
def asList : Json → Option (List Json)
  | .list xs => some xs
  | _ => none

/-- The alternate-key tuple of src/app.py line 37. -/
def RESPONSE_KEYS : List String := ["data", "contents", "result", "items", "records"]

/-- Mirror of `extract_records` (src/app.py lines 32-40): a list is returned
as-is; for a dict the first key among RESPONSE_KEYS that is present with a
list value wins; everything else yields the empty list. -/
def extract_records : Json → List Json
  | .list xs => xs
  | .obj kvs => ((RESPONSE_KEYS.findSome? fun k => (lookupJ kvs k).bind asList)).getD []
  | _ => []

/-- One row of the cleaned DataFrame (src/app.py lines 122-125): the four
dimension columns (missing values are `none`, i.e. pandas NaN) and the
integer-coerced `Available_Courts` count. -/
structure Record where
  District_Name_EN : Option String
  Venue_Name_EN : Option String
  Available_Date : Option String
  Session_Start_Time : Option String
  Available_Courts : Int
deriving DecidableEq, Repr

/-- A dimension cell of the DataFrame: a JSON string is kept, a missing field
is NaN (`none`).  The API's dimension columns are strings; non-string values
are outside the data contract and are treated as missing. -/
def asDimStr : Option Json → Option String
  | some (.str s) => some s
  | _ => none

/-- Integer-string parser over the character list of a string: digits
accumulated base 10, any non-digit character fails. -/
def parseNatAux : List Char → Nat → Option Nat
  | [], acc => some acc
  | c :: rest, acc => if c.isDigit then parseNatAux rest (10 * acc + (c.toNat - 48)) else none

/-- Decimal integer strings, with an optional leading minus sign, parsed to
their value; the empty string and any string with a non-digit fail. -/
def parseIntStr (s : String) : Option Int :=
  match s.data with
  | [] => none
  | '-' :: [] => none
  | '-' :: c :: rest => (parseNatAux (c :: rest) 0).map fun n => -(n : Int)
  | c :: rest => (parseNatAux (c :: rest) 0).map fun n => (n : Int)

/-- The count coercion of src/app.py line 125,
`pd.to_numeric(df["Available_Courts"], errors="coerce").fillna(0).astype(int)`,
on the integer-valued counts the API serves: a JSON number is kept, a decimal
integer string is parsed, a boolean becomes 0 or 1, and everything else —
a missing field, null, a non-numeric string, a nested value — coerces to 0.
(Fractional or scientific numeric strings are outside the API's integer-count
data contract and are not modelled.) -/
def toCount : Option Json → Int
  | some (.num n) => n
  | some (.str s) => (parseIntStr s).getD 0
  | some (.bool b) => if b then 1 else 0
  | _ => 0

/-- One row of `pd.DataFrame(raw_records)` after the column coercion of
src/app.py lines 122-125.  A non-object list element contributes an all-missing
row. -/
def toRecord : Json → Record
  | .obj kvs =>
      { District_Name_EN := asDimStr (lookupJ kvs "District_Name_EN")
        Venue_Name_EN := asDimStr (lookupJ kvs "Venue_Name_EN")
        Available_Date := asDimStr (lookupJ kvs "Available_Date")
        Session_Start_Time := asDimStr (lookupJ kvs "Session_Start_Time")
        Available_Courts := toCount (lookupJ kvs "Available_Courts") }
  | _ =>
      { District_Name_EN := none
        Venue_Name_EN := none
        Available_Date := none
        Session_Start_Time := none
        Available_Courts := 0 }

/-- The `available_df` of src/app.py lines 122-128: the parsed rows restricted
to `Available_Courts > 0`. -/
def availableRecords (raw : List Json) : List Record :=
  (raw.map toRecord).filter fun r => decide (0 < r.Available_Courts)

/-- Code-point-lexicographic order on character lists — the order Python's
`sorted` uses on strings. -/
def charListLt : List Char → List Char → Bool
  | [], [] => false
  | [], _ :: _ => true
  | _ :: _, [] => false
  | a :: as, b :: bs => if a < b then true else if b < a then false else charListLt as bs

/-- String comparison for the `sorted(...)` calls of src/app.py. -/
def strLt (a b : String) : Bool := charListLt a.data b.data

/-- Insertion step of the sort used to model Python's `sorted`. -/
def insertStr (x : String) : List String → List String
  | [] => [x]
  | y :: ys => if strLt y x then y :: insertStr x ys else x :: y :: ys

/-- Ascending insertion sort modelling Python's `sorted` on strings. -/
def sortStrs : List String → List String
  | [] => []
  | x :: xs => insertStr x (sortStrs xs)

/-- The option-list computation `sorted(frame[col].dropna().unique())` used at
src/app.py lines 138, 151, 162 and 173: the distinct non-missing values of a
dimension, sorted ascending. -/
def optionsOf (f : Record → Option String) (rs : List Record) : List String :=
  sortStrs (rs.filterMap f).dedup

/-- The value a keyed `st.sidebar.multiselect(options=...)` widget holds: the
stored selection pruned to the currently valid options (a choice that is no
longer among the options is dropped by the widget). -/
def multiselect (options stored : List String) : List String :=
  stored.filter fun v => decide (v ∈ options)

/-- The pandas membership filter `frame[frame[col].isin(sel)]` on one row:
a missing value (NaN) is never `isin` a selection. -/
def isinDim (f : Record → Option String) (sel : List String) (r : Record) : Bool :=
  match f r with
  | some v => decide (v ∈ sel)
  | none => false

/-- The `if selected: frame = frame[frame[col].isin(selected)]` pattern used
for every funnel level (src/app.py lines 147-150, 160-161, 171-172, 183-190):
an empty selection leaves the frame unchanged, a non-empty selection restricts
it by membership. -/
def condFilter (f : Record → Option String) (sel : List String) (rs : List Record) : List Record :=
  if sel.isEmpty then rs else rs.filter (isinDim f sel)

/-- `all_districts` (src/app.py line 138). -/
def all_districts (available : List Record) : List String :=
  optionsOf Record.District_Name_EN available

/-- `selected_districts` (src/app.py lines 139-144): the district multiselect
value, pruned to the valid district options. -/
def selected_districts (available : List Record) (sD : List String) : List String :=
  multiselect (all_districts available) sD

/-- `scope_df` after the district restriction (src/app.py lines 147-150). -/
def scopeDistrict (available : List Record) (sD : List String) : List Record :=
  condFilter Record.District_Name_EN (selected_districts available sD) available

/-- `venue_options` (src/app.py line 151). -/
def venue_options (available : List Record) (sD : List String) : List String :=
  optionsOf Record.Venue_Name_EN (scopeDistrict available sD)

/-- `selected_venues` (src/app.py lines 152-157). -/
def selected_venues (available : List Record) (sD sV : List String) : List String :=
  multiselect (venue_options available sD) sV

/-- `scope_df` after the venue restriction (src/app.py lines 160-161). -/
def scopeVenue (available : List Record) (sD sV : List String) : List Record :=
  condFilter Record.Venue_Name_EN (selected_venues available sD sV) (scopeDistrict available sD)

/-- `date_options` (src/app.py line 162). -/
def date_options (available : List Record) (sD sV : List String) : List String :=
  optionsOf Record.Available_Date (scopeVenue available sD sV)

/-- `selected_dates` (src/app.py lines 163-168). -/
def selected_dates (available : List Record) (sD sV sDa : List String) : List String :=
  multiselect (date_options available sD sV) sDa

/-- `scope_df` after the date restriction (src/app.py lines 171-172). -/
def scopeDate (available : List Record) (sD sV sDa : List String) : List Record :=
  condFilter Record.Available_Date (selected_dates available sD sV sDa) (scopeVenue available sD sV)

/-- `time_options` (src/app.py line 173). -/
def time_options (available : List Record) (sD sV sDa : List String) : List String :=
  optionsOf Record.Session_Start_Time (scopeDate available sD sV sDa)

/-- `selected_times` (src/app.py lines 174-179). -/
def selected_times (available : List Record) (sD sV sDa sT : List String) : List String :=
  multiselect (time_options available sD sV sDa) sT

/-- `filtered_df` (src/app.py lines 181-190): starting again from
`available_df`, every non-empty (widget-corrected) selection is applied as a
membership filter, level by level. -/
def filtered_df (available : List Record) (sD sV sDa sT : List String) : List Record :=
  condFilter Record.Session_Start_Time (selected_times available sD sV sDa sT)
    (condFilter Record.Available_Date (selected_dates available sD sV sDa)
      (condFilter Record.Venue_Name_EN (selected_venues available sD sV)
        (condFilter Record.District_Name_EN (selected_districts available sD) available)))

/-- Everything the funnel pass of src/app.py lines 134-190 produces: the four
option lists, the four (widget-corrected) selections, and the final filtered
frame. -/
structure FunnelResult where
  all_districts : List String
  selected_districts : List String
  venue_options : List String
  selected_venues : List String
  date_options : List String
  selected_dates : List String
  time_options : List String
  selected_times : List String
  filtered_df : List Record
deriving DecidableEq, Repr

/-- One full funnel pass (src/app.py lines 134-190) for a given available
record set and the four stored multiselect selections. -/
def computeFunnel (available : List Record) (sD sV sDa sT : List String) : FunnelResult :=
  { all_districts := all_districts available
    selected_districts := selected_districts available sD
    venue_options := venue_options available sD
    selected_venues := selected_venues available sD sV
    date_options := date_options available sD sV
    selected_dates := selected_dates available sD sV sDa
    time_options := time_options available sD sV sDa
    selected_times := selected_times available sD sV sDa sT
    filtered_df := filtered_df available sD sV sDa sT }

/-- District default `all_districts[:1]` (src/app.py line 142). -/
def default_districts (opts : List String) : List String := opts.take 1

/-- Venue default `venue_options[:3] if len(venue_options) <= 5 else []`
(src/app.py line 155). -/
def default_venues (opts : List String) : List String :=
  if opts.length ≤ 5 then opts.take 3 else []

/-- Date default `date_options[:5] if len(date_options) <= 10 else []`
(src/app.py line 166). -/
def default_dates (opts : List String) : List String :=
  if opts.length ≤ 10 then opts.take 5 else []

/-- Time default `time_options` — all options, unconditionally
(src/app.py line 177). -/
def default_times (opts : List String) : List String := opts

/-- The funnel pass on a first render, when every multiselect holds its
default value (src/app.py lines 134-190 with no prior session state): each
level's default is computed from the option list that level displays. -/
def defaultFunnel (available : List Record) : FunnelResult :=
  let dD := default_districts (all_districts available)
  let dV := default_venues (venue_options available dD)
  let dDa := default_dates (date_options available dD dV)
  let dT := default_times (time_options available dD dV dDa)
  computeFunnel available dD dV dDa dT

/-- The date-and-time lower half of the funnel as a function of the scope
left after the venue level; `filtered_df` factors through it definitionally. -/
def tailFromVenue (s2 : List Record) (sDa sT : List String) : List Record :=
  condFilter Record.Session_Start_Time
    (multiselect (optionsOf Record.Session_Start_Time
        (condFilter Record.Available_Date (multiselect (optionsOf Record.Available_Date s2) sDa) s2)) sT)
    (condFilter Record.Available_Date (multiselect (optionsOf Record.Available_Date s2) sDa) s2)

/-- The venue-and-below lower part of the funnel as a function of the scope
left after the district level. -/
def tailFromDistrict (s1 : List Record) (sV sDa sT : List String) : List Record :=
  tailFromVenue (condFilter Record.Venue_Name_EN (multiselect (optionsOf Record.Venue_Name_EN s1) sV) s1) sDa sT

/-- The time level of the funnel as a function of the scope left after the
date level. -/
def tailFromDate (s3 : List Record) (sT : List String) : List Record :=
  condFilter Record.Session_Start_Time (multiselect (optionsOf Record.Session_Start_Time s3) sT) s3

/-- The filter the specification describes for `filtered_records`: one AND of
per-level set-membership tests over the availability-filtered records, an
empty selection passing everything through. -/
def andFilterSpec (available : List Record) (sD sV sDa sT : List String) : List Record :=
  available.filter fun r =>
    (sD.isEmpty || isinDim Record.District_Name_EN sD r)
    && ((sV.isEmpty || isinDim Record.Venue_Name_EN sV r)
    && ((sDa.isEmpty || isinDim Record.Available_Date sDa r)
    && (sT.isEmpty || isinDim Record.Session_Start_Time sT r)))

/-- `target_found` (src/app.py line 205): the filtered table is non-empty. -/
def target_found (filtered : List Record) : Bool := !filtered.isEmpty

/-- The alert decision of src/app.py lines 204-213: while the live monitor is
enabled, the balloons / toast / browser notification block runs on every
rerun whose filtered table is non-empty.  No last-match state exists in the
script, so the decision depends on the current tick alone. -/
def notifyOnTick (enable_live_monitor : Bool) (filtered : List Record) : Bool :=
  enable_live_monitor && target_found filtered

/-- One entry of the `st.cache_data` store backing `fetch_data`
(src/app.py line 88): the time the value was computed and the memoised return
value — which is `none` exactly when `fetch_data` returned `None`, i.e. when
the fetch failed. -/
structure CacheEntry where
  fetched_at : Int
  value : Option (List Json)
deriving Repr

/-- The body of `fetch_data` (src/app.py lines 89-99): a successful fetch of a
raw payload is passed through `extract_records`; any request or decoding
failure (the source yielding nothing) returns `None`. -/
def fetch_body (src : Option Json) : Option (List Json) :=
  src.map extract_records

/-- A call to the `@st.cache_data(ttl=1800)`-decorated `fetch_data`
(src/app.py lines 88-99): a cache entry younger than the TTL is returned
without invoking the body — whatever value it memoised, a failure `None`
included — and otherwise the body runs and its return value is stored.  The
third component records whether the data source was invoked. -/
def fetch_data_cached (ttl : Int) (src : Option Json) (cache : Option CacheEntry) (now : Int) :
    Option (List Json) × Option CacheEntry × Bool :=
  match cache with
  | some e =>
      if now - e.fetched_at < ttl then (e.value, cache, false)
      else (fetch_body src, some { fetched_at := now, value := fetch_body src }, true)
  | none => (fetch_body src, some { fetched_at := now, value := fetch_body src }, true)

/-- The concrete scenario of the specification: a V1 row with two courts and a
V2 row with zero courts, both in district A, as raw API records. -/
def scenarioRaw : List Json :=
  [ Json.obj [("District_Name_EN", Json.str "A"), ("Venue_Name_EN", Json.str "V1"),
      ("Available_Date", Json.str "2024-01-01"), ("Session_Start_Time", Json.str "19:00"),
      ("Available_Courts", Json.num 2)],
    Json.obj [("District_Name_EN", Json.str "A"), ("Venue_Name_EN", Json.str "V2"),
      ("Available_Date", Json.str "2024-01-01"), ("Session_Start_Time", Json.str "20:00"),
      ("Available_Courts", Json.num 0)] ]

/-- The parsed V1 row of the scenario. -/
def scenarioRec1 : Record :=
  { District_Name_EN := some "A", Venue_Name_EN := some "V1",
    Available_Date := some "2024-01-01", Session_Start_Time := some "19:00",
    Available_Courts := 2 }

/-- An available record with every dimension present, used as a generic slot. -/
def exSlot : Record :=
  { District_Name_EN := some "A", Venue_Name_EN := some "V1",
    Available_Date := some "2024-01-01", Session_Start_Time := some "19:00",
    Available_Courts := 2 }

/-- Two available rows, the second with a missing venue: a NaN dimension cell
survives an empty venue selection but is dropped by any non-empty one. -/
def exMissingVenue : List Record :=
  [ { District_Name_EN := some "A", Venue_Name_EN := some "V",
      Available_Date := some "D", Session_Start_Time := some "T", Available_Courts := 1 },
    { District_Name_EN := some "A", Venue_Name_EN := none,
      Available_Date := some "D", Session_Start_Time := some "T", Available_Courts := 1 } ]

/-- Four available rows in one district with four distinct venues: the venue
default is then the first three options — neither all options nor none. -/
def exFourVenues : List Record :=
  [ { District_Name_EN := some "A", Venue_Name_EN := some "V1",
      Available_Date := some "D", Session_Start_Time := some "T", Available_Courts := 1 },
    { District_Name_EN := some "A", Venue_Name_EN := some "V2",
      Available_Date := some "D", Session_Start_Time := some "T", Available_Courts := 1 },
    { District_Name_EN := some "A", Venue_Name_EN := some "V3",
      Available_Date := some "D", Session_Start_Time := some "T", Available_Courts := 1 },
    { District_Name_EN := some "A", Venue_Name_EN := some "V4",
      Available_Date := some "D", Session_Start_Time := some "T", Available_Courts := 1 } ]

/-- A raw record whose count string is negative, for the strict-positivity
claim. -/
def exNegRaw : List Json :=
  [ Json.obj [("District_Name_EN", Json.str "A"), ("Venue_Name_EN", Json.str "V1"),
      ("Available_Date", Json.str "2024-01-01"), ("Session_Start_Time", Json.str "19:00"),
      ("Available_Courts", Json.str "-3")] ]

/-- A response object whose first alternate key holds a non-list and whose
second holds the record list. -/
def exResp : List (String × Json) := [("data", Json.num 1), ("contents", Json.list [Json.num 2])]

/-- A response object none of whose alternate keys holds a list. -/
def exTotal : List (String × Json) := [("data", Json.num 3), ("foo", Json.null)]

/-- A raw response record whose count arrives as the numeric string "12". -/
def exCountRaw : List (String × Json) := [("Available_Courts", Json.str "12")]

/-- The parsed row of `exNegRaw`: its coerced count is the negative integer -3. -/
def exNegRec : Record :=
  { District_Name_EN := some "A", Venue_Name_EN := some "V1",
    Available_Date := some "2024-01-01", Session_Start_Time := some "19:00",
    Available_Courts := -3 }

/-- Membership in an insertion step is membership in the inserted element or the rest. -/
theorem mem_insertStr {a x : String} {l : List String} : a ∈ insertStr x l ↔ a = x ∨ a ∈ l := by
  induction l with
  | nil => simp [insertStr]
  | cons y ys ih =>
      unfold insertStr
      split
      · simp only [List.mem_cons, ih]
        tauto
      · simp only [List.mem_cons]

/-- Sorting preserves membership. -/
theorem mem_sortStrs {a : String} {l : List String} : a ∈ sortStrs l ↔ a ∈ l := by
  induction l with
  | nil => simp [sortStrs]
  | cons x xs ih => simp [sortStrs, mem_insertStr, ih]

/-- A value is an option of a dimension exactly when some record in scope carries it. -/
theorem mem_optionsOf {f : Record → Option String} {rs : List Record} {v : String} :
    v ∈ optionsOf f rs ↔ ∃ r, r ∈ rs ∧ f r = some v := by
  unfold optionsOf
  rw [mem_sortStrs, List.mem_dedup, List.mem_filterMap]

/-- A widget-corrected choice is always one of the widget's options. -/
theorem mem_multiselect {opts s : List String} {v : String} (h : v ∈ multiselect opts s) :
    v ∈ opts :=
  of_decide_eq_true (List.mem_filter.mp h).2

/-- Pruning a selection that already lies inside the options changes nothing. -/
theorem multiselect_of_subset {opts s : List String} (h : ∀ v ∈ s, v ∈ opts) :
    multiselect opts s = s :=
  List.filter_eq_self.mpr fun v hv => decide_eq_true (h v hv)

/-- A conditionally filtered frame is a subset of the frame. -/
theorem condFilter_subset {f : Record → Option String} {sel : List String} {rs : List Record} :
    ∀ r ∈ condFilter f sel rs, r ∈ rs := by
  intro r h
  unfold condFilter at h
  split at h
  · exact h
  · exact List.mem_of_mem_filter h

/-- The conditional filter is one unconditional filter whose test passes
everything when the selection is empty. -/
theorem condFilter_eq_filter (f : Record → Option String) (sel : List String) (rs : List Record) :
    condFilter f sel rs = rs.filter fun r => sel.isEmpty || isinDim f sel r := by
  unfold condFilter
  cases h : sel.isEmpty <;> simp [h]

/-- Two stacked filters are one filter of the conjunction. -/
theorem filter_and_filter {α : Type} (p q : α → Bool) (l : List α) :
    (l.filter p).filter q = l.filter fun a => p a && q a := by
  induction l with
  | nil => rfl
  | cons a l ih => cases hp : p a <;> cases hq : q a <;> simp [List.filter_cons, hp, hq, ih]

/-- Evaluating the membership test on a row whose dimension value is present. -/
theorem isinDim_some {f : Record → Option String} {sel : List String} {r : Record} {v : String}
    (hv : f r = some v) : isinDim f sel r = decide (v ∈ sel) := by
  unfold isinDim
  rw [hv]

/-- Selecting every option of a dimension does not restrict a scope whose rows
all carry that dimension. -/
theorem condFilter_optionsOf (f : Record → Option String) (s : List Record)
    (h : ∀ r ∈ s, (f r).isSome) :
    condFilter f (multiselect (optionsOf f s) (optionsOf f s)) s = s := by
  rw [multiselect_of_subset fun _ hv => hv]
  unfold condFilter
  cases he : (optionsOf f s).isEmpty with
  | true => rfl
  | false =>
      show s.filter (isinDim f (optionsOf f s)) = s
      apply List.filter_eq_self.mpr
      intro r hr
      obtain ⟨v, hv⟩ := Option.isSome_iff_exists.mp (h r hr)
      rw [isinDim_some hv]
      exact decide_eq_true (mem_optionsOf.mpr ⟨r, hr, hv⟩)

/-- Rows scoped by the district level come from the available frame. -/
theorem scopeDistrict_subset {a : List Record} {sD : List String} :
    ∀ r ∈ scopeDistrict a sD, r ∈ a :=
  fun r h => condFilter_subset r h

/-- Rows scoped by the venue level come from the available frame. -/
theorem scopeVenue_subset {a : List Record} {sD sV : List String} :
    ∀ r ∈ scopeVenue a sD sV, r ∈ a :=
  fun r h => scopeDistrict_subset r (condFilter_subset r h)

/-- Rows scoped by the date level come from the available frame. -/
theorem scopeDate_subset {a : List Record} {sD sV sDa : List String} :
    ∀ r ∈ scopeDate a sD sV sDa, r ∈ a :=
  fun r h => scopeVenue_subset r (condFilter_subset r h)

/-- A membership-mapped list with every image `none` finds nothing. -/
theorem findSome_eq_none {α β : Type} (f : α → Option β) (l : List α)
    (h : ∀ a ∈ l, f a = none) : l.findSome? f = none := by
  induction l with
  | nil => rfl
  | cons a l ih =>
      rw [List.findSome?_cons, h a (List.mem_cons_self a l)]
      exact ih fun x hx => h x (List.mem_cons_of_mem a hx)

/-- A failing prefix of the key list is skipped by the search. -/
theorem findSome_append_none {α β : Type} (f : α → Option β) (l1 l2 : List α)
    (h : ∀ a ∈ l1, f a = none) : (l1 ++ l2).findSome? f = l2.findSome? f := by
  induction l1 with
  | nil => rfl
  | cons a l ih =>
      rw [List.cons_append, List.findSome?_cons, h a (List.mem_cons_self a l)]
      exact ih fun x hx => h x (List.mem_cons_of_mem a hx)

/-- A successful lookup names a binding of the object. -/
theorem lookupJ_mem {kvs : List (String × Json)} {k : String} {v : Json}
    (h : lookupJ kvs k = some v) : (k, v) ∈ kvs := by
  induction kvs with
  | nil => cases h
  | cons p rest ih =>
      obtain ⟨k1, v1⟩ := p
      rw [lookupJ] at h
      split at h
      · cases h
        rename_i heq
        rw [heq]
        exact List.mem_cons_self _ _
      · exact List.mem_cons_of_mem _ (ih h)

/-- A record of the availability-filtered frame has a positive count. -/
theorem mem_availableRecords_pos {raw : List Json} {r : Record}
    (h : r ∈ availableRecords raw) : 0 < r.Available_Courts :=
  of_decide_eq_true (List.mem_filter.mp h).2

/-- The availability-filtered frame is drawn from the parsed rows. -/
theorem mem_availableRecords_src {raw : List Json} {r : Record}
    (h : r ∈ availableRecords raw) : r ∈ raw.map toRecord :=
  List.mem_of_mem_filter h

/-- C1: the claim states the alert decision is edge-triggered, firing on a tick
exactly when the current tick matches and the previous one did not, so that over
the match sequence [false, true, true, false, true] it fires only on ticks 2 and
5 and never on tick 3.  The script keeps no last-match state: with the live
monitor enabled the alert block runs on every tick whose filtered table is
non-empty, so over that sequence it fires on ticks 2, 3 and 5 — tick 3 included,
contradicting the claim. -/
theorem notification_fires_every_matching_tick :
    ([[], [exSlot], [exSlot], [], [exSlot]].map (notifyOnTick true))
      = [false, true, true, false, true] := rfl

/-- C2: the claim states a failing fetch is never stored in the cache and the
very next call re-invokes the data source.  In the code a failing fetch returns
`None`, `st.cache_data` memoises that `None` (first conjunct: the new cache
entry holds `none`), and a second call one second later — within the
1800-second TTL, with the data source healthy again — replays the cached
failure without invoking the source (second conjunct: result `none`, cache
unchanged, invocation flag `false`), contradicting the claim. -/
theorem failed_fetch_is_cached_and_replayed :
    fetch_data_cached 1800 none none 0 = (none, some { fetched_at := 0, value := none }, true)
  ∧ fetch_data_cached 1800 (some (Json.list [])) (some { fetched_at := 0, value := none }) 1
      = (none, some { fetched_at := 0, value := none }, false) := ⟨rfl, rfl⟩

/-- C3: funnel consistency — after a funnel pass every widget-corrected chosen
value at each level is a member of that level's option list, and the final
filtered frame equals the AND-of-set-membership filter of the corrected
selections (empty selection passing through) over the availability-filtered
records. -/
theorem funnel_consistency (available : List Record) (sD sV sDa sT : List String) :
    (∀ v ∈ (computeFunnel available sD sV sDa sT).selected_districts,
        v ∈ (computeFunnel available sD sV sDa sT).all_districts)
  ∧ (∀ v ∈ (computeFunnel available sD sV sDa sT).selected_venues,
        v ∈ (computeFunnel available sD sV sDa sT).venue_options)
  ∧ (∀ v ∈ (computeFunnel available sD sV sDa sT).selected_dates,
        v ∈ (computeFunnel available sD sV sDa sT).date_options)
  ∧ (∀ v ∈ (computeFunnel available sD sV sDa sT).selected_times,
        v ∈ (computeFunnel available sD sV sDa sT).time_options)
  ∧ (computeFunnel available sD sV sDa sT).filtered_df
      = andFilterSpec available
          (computeFunnel available sD sV sDa sT).selected_districts
          (computeFunnel available sD sV sDa sT).selected_venues
          (computeFunnel available sD sV sDa sT).selected_dates
          (computeFunnel available sD sV sDa sT).selected_times := by
  refine ⟨fun v hv => mem_multiselect hv, fun v hv => mem_multiselect hv,
    fun v hv => mem_multiselect hv, fun v hv => mem_multiselect hv, ?_⟩
  show filtered_df available sD sV sDa sT
      = andFilterSpec available (selected_districts available sD) (selected_venues available sD sV)
          (selected_dates available sD sV sDa) (selected_times available sD sV sDa sT)
  unfold filtered_df andFilterSpec
  simp only [condFilter_eq_filter, filter_and_filter]
  refine List.filter_congr fun r _ => ?_
  cases (selected_districts available sD).isEmpty || isinDim Record.District_Name_EN (selected_districts available sD) r <;>
    cases (selected_venues available sD sV).isEmpty || isinDim Record.Venue_Name_EN (selected_venues available sD sV) r <;>
    cases (selected_dates available sD sV sDa).isEmpty || isinDim Record.Available_Date (selected_dates available sD sV sDa) r <;>
    cases (selected_times available sD sV sDa sT).isEmpty || isinDim Record.Session_Start_Time (selected_times available sD sV sDa sT) r <;>
    rfl

/-- C3 witness: in the specification scenario with district selection A, the
chosen district A is a member of the district option list. -/
theorem funnel_consistency_witness :
    "A" ∈ (computeFunnel (availableRecords scenarioRaw) ["A"] [] [] []).selected_districts
  ∧ "A" ∈ (computeFunnel (availableRecords scenarioRaw) ["A"] [] [] []).all_districts :=
  ⟨by decide, (funnel_consistency (availableRecords scenarioRaw) ["A"] [] [] []).1 "A" (by decide)⟩

/-- C4 counterexample: the claim fails as stated.  On two available rows in one
district where the second row's venue is missing (NaN), an empty venue
selection keeps both rows in the filtered frame, while selecting all of the
computed venue options keeps only the first: `.isin` never matches a missing
value, so the two filtered frames differ. -/
theorem empty_selection_pass_through_fails :
    ¬((computeFunnel exMissingVenue [] [] [] []).filtered_df
      = (computeFunnel exMissingVenue []
          ((computeFunnel exMissingVenue [] [] [] []).venue_options) [] []).filtered_df) := by
  decide

/-- C4 amended: for a level at which every available record carries a
(non-missing) dimension value, leaving that level's selection empty yields
exactly the same filtered frame as selecting all of that level's computed
option list — one conjunct per funnel level. -/
theorem empty_selection_pass_through_amended (available : List Record)
    (sD sV sDa sT : List String) :
    ((∀ r ∈ available, (Record.District_Name_EN r).isSome) →
        (computeFunnel available [] sV sDa sT).filtered_df
          = (computeFunnel available
              ((computeFunnel available [] sV sDa sT).all_districts) sV sDa sT).filtered_df)
  ∧ ((∀ r ∈ available, (Record.Venue_Name_EN r).isSome) →
        (computeFunnel available sD [] sDa sT).filtered_df
          = (computeFunnel available sD
              ((computeFunnel available sD [] sDa sT).venue_options) sDa sT).filtered_df)
  ∧ ((∀ r ∈ available, (Record.Available_Date r).isSome) →
        (computeFunnel available sD sV [] sT).filtered_df
          = (computeFunnel available sD sV
              ((computeFunnel available sD sV [] sT).date_options) sT).filtered_df)
  ∧ ((∀ r ∈ available, (Record.Session_Start_Time r).isSome) →
        (computeFunnel available sD sV sDa []).filtered_df
          = (computeFunnel available sD sV sDa
              ((computeFunnel available sD sV sDa []).time_options)).filtered_df) := by
  refine ⟨?_, ?_, ?_, ?_⟩
  · intro h
    have hs : scopeDistrict available (all_districts available) = available :=
      condFilter_optionsOf Record.District_Name_EN available h
    calc filtered_df available [] sV sDa sT
        = tailFromDistrict available sV sDa sT := rfl
      _ = tailFromDistrict (scopeDistrict available (all_districts available)) sV sDa sT := by
            rw [hs]
      _ = filtered_df available (all_districts available) sV sDa sT := rfl
  · intro h
    have hs : scopeVenue available sD (venue_options available sD) = scopeDistrict available sD :=
      condFilter_optionsOf Record.Venue_Name_EN (scopeDistrict available sD)
        fun r hr => h r (scopeDistrict_subset r hr)
    calc filtered_df available sD [] sDa sT
        = tailFromVenue (scopeDistrict available sD) sDa sT := rfl
      _ = tailFromVenue (scopeVenue available sD (venue_options available sD)) sDa sT := by
            rw [hs]
      _ = filtered_df available sD (venue_options available sD) sDa sT := rfl
  · intro h
    have hs : scopeDate available sD sV (date_options available sD sV)
        = scopeVenue available sD sV :=
      condFilter_optionsOf Record.Available_Date (scopeVenue available sD sV)
        fun r hr => h r (scopeVenue_subset r hr)
    calc filtered_df available sD sV [] sT
        = tailFromDate (scopeVenue available sD sV) sT := rfl
      _ = tailFromDate (scopeDate available sD sV (date_options available sD sV)) sT := by
            rw [hs]
      _ = filtered_df available sD sV (date_options available sD sV) sT := rfl
  · intro h
    have hs : tailFromDate (scopeDate available sD sV sDa) (time_options available sD sV sDa)
        = scopeDate available sD sV sDa :=
      condFilter_optionsOf Record.Session_Start_Time (scopeDate available sD sV sDa)
        fun r hr => h r (scopeDate_subset r hr)
    calc filtered_df available sD sV sDa []
        = scopeDate available sD sV sDa := rfl
      _ = tailFromDate (scopeDate available sD sV sDa) (time_options available sD sV sDa) :=
            hs.symm
      _ = filtered_df available sD sV sDa (time_options available sD sV sDa) := rfl

/-- C4 witness: on a one-row frame whose venue is present, the empty venue
selection and the all-options venue selection produce the same filtered frame. -/
theorem empty_selection_pass_through_amended_witness :
    (∀ r ∈ [exSlot], (Record.Venue_Name_EN r).isSome)
  ∧ (computeFunnel [exSlot] [] [] [] []).filtered_df
      = (computeFunnel [exSlot] []
          ((computeFunnel [exSlot] [] [] [] []).venue_options) [] []).filtered_df :=
  ⟨by decide, (empty_selection_pass_through_amended [exSlot] [] [] [] []).2.1 (by decide)⟩

/-- C5: record extraction from the data-source response — a list is used
as-is; for an object the first key among data, contents, result, items,
records (in that order) whose value is a list wins; an object with none of
those keys list-valued yields the empty sequence (and the function is total,
so no error is raised). -/
theorem extract_records_first_list_key_wins :
    (∀ xs, extract_records (Json.list xs) = xs)
  ∧ (∀ pre key post kvs xs, RESPONSE_KEYS = pre ++ key :: post →
        (∀ k2 ∈ pre, (lookupJ kvs k2).bind asList = none) →
        lookupJ kvs key = some (Json.list xs) →
        extract_records (Json.obj kvs) = xs)
  ∧ (∀ kvs, (∀ k2 ∈ RESPONSE_KEYS, (lookupJ kvs k2).bind asList = none) →
        extract_records (Json.obj kvs) = []) := by
  refine ⟨fun xs => rfl, ?_, ?_⟩
  · intro pre key post kvs xs hkeys hpre hkey
    show ((RESPONSE_KEYS.findSome? fun k => (lookupJ kvs k).bind asList)).getD [] = xs
    rw [hkeys, findSome_append_none _ pre _ hpre, List.findSome?_cons, hkey]
    rfl
  · intro kvs h
    show ((RESPONSE_KEYS.findSome? fun k => (lookupJ kvs k).bind asList)).getD [] = []
    rw [findSome_eq_none _ _ h]
    rfl

/-- C5 witness: on a response object whose key data holds a non-list and whose
key contents holds the record list, the contents list is extracted. -/
theorem extract_records_first_list_key_wins_witness :
    RESPONSE_KEYS = ["data"] ++ "contents" :: ["result", "items", "records"]
  ∧ extract_records (Json.obj exResp) = [Json.num 2] :=
  ⟨rfl, extract_records_first_list_key_wins.2.1 ["data"] "contents" ["result", "items", "records"]
      exResp [Json.num 2] rfl
      (by
        intro k2 hk2
        rw [List.mem_singleton.mp hk2]
        rfl)
      rfl⟩

/-- C6: availability-count coercion — for an incoming record whose
Available_Courts field is a decimal integer string it is parsed to its integer
value; a non-parsing (non-numeric) string or a missing field is coerced to 0
rather than rejecting the fetch (the coercion is total). -/
theorem available_count_coercion (kvs : List (String × Json)) :
    (∀ s n, lookupJ kvs "Available_Courts" = some (Json.str s) → parseIntStr s = some n →
        (toRecord (Json.obj kvs)).Available_Courts = n)
  ∧ (∀ s, lookupJ kvs "Available_Courts" = some (Json.str s) → parseIntStr s = none →
        (toRecord (Json.obj kvs)).Available_Courts = 0)
  ∧ (lookupJ kvs "Available_Courts" = none →
        (toRecord (Json.obj kvs)).Available_Courts = 0) := by
  refine ⟨?_, ?_, ?_⟩
  · intro s n h1 h2
    show toCount (lookupJ kvs "Available_Courts") = n
    rw [h1]
    show (parseIntStr s).getD 0 = n
    rw [h2]
    rfl
  · intro s h1 h2
    show toCount (lookupJ kvs "Available_Courts") = 0
    rw [h1]
    show (parseIntStr s).getD 0 = 0
    rw [h2]
    rfl
  · intro h1
    show toCount (lookupJ kvs "Available_Courts") = 0
    rw [h1]
    rfl

/-- C6 witness: the numeric string "12" is coerced to the count 12. -/
theorem available_count_coercion_witness :
    lookupJ exCountRaw "Available_Courts" = some (Json.str "12")
  ∧ parseIntStr "12" = some 12
  ∧ (toRecord (Json.obj exCountRaw)).Available_Courts = 12 :=
  ⟨rfl, by decide, (available_count_coercion exCountRaw).1 "12" 12 rfl (by decide)⟩

/-- C7 counterexample: the claim's concrete scenario asserts
options_venue = [V1, V2]; in the code the zero-count V2 row is dropped by the
availability pre-filter before the funnel runs, so the venue option list of
the scenario is [V1] alone. -/
theorem scenario_venue_options_counterexample :
    ¬((computeFunnel (availableRecords scenarioRaw) ["A"] [] [] []).venue_options
      = ["V1", "V2"]) := by
  decide

/-- C7 amended: every record with a non-positive count is dropped before the
funnel, so every available record, every filtered record, and every value in
every level's option list is backed by a positive-count record; in the
specification scenario with district selection A the venue option list is [V1]
(not [V1, V2]) and the filtered frame holds only the V1 row. -/
theorem zero_availability_prefilter_amended (raw : List Json) (sD sV sDa sT : List String) :
    (∀ r ∈ availableRecords raw, 0 < r.Available_Courts)
  ∧ (∀ r ∈ (computeFunnel (availableRecords raw) sD sV sDa sT).filtered_df,
        r ∈ availableRecords raw ∧ 0 < r.Available_Courts)
  ∧ (∀ v ∈ (computeFunnel (availableRecords raw) sD sV sDa sT).all_districts,
        ∃ r, r ∈ availableRecords raw ∧ r.District_Name_EN = some v ∧ 0 < r.Available_Courts)
  ∧ (∀ v ∈ (computeFunnel (availableRecords raw) sD sV sDa sT).venue_options,
        ∃ r, r ∈ availableRecords raw ∧ r.Venue_Name_EN = some v ∧ 0 < r.Available_Courts)
  ∧ (∀ v ∈ (computeFunnel (availableRecords raw) sD sV sDa sT).date_options,
        ∃ r, r ∈ availableRecords raw ∧ r.Available_Date = some v ∧ 0 < r.Available_Courts)
  ∧ (∀ v ∈ (computeFunnel (availableRecords raw) sD sV sDa sT).time_options,
        ∃ r, r ∈ availableRecords raw ∧ r.Session_Start_Time = some v ∧ 0 < r.Available_Courts)
  ∧ ((computeFunnel (availableRecords scenarioRaw) ["A"] [] [] []).venue_options = ["V1"]
      ∧ (computeFunnel (availableRecords scenarioRaw) ["A"] [] [] []).filtered_df
          = [scenarioRec1]) := by
  refine ⟨fun r hr => mem_availableRecords_pos hr, ?_, ?_, ?_, ?_, ?_, by decide, by decide⟩
  · intro r hr
    have hmem : r ∈ availableRecords raw :=
      condFilter_subset r (condFilter_subset r (condFilter_subset r (condFilter_subset r hr)))
    exact ⟨hmem, mem_availableRecords_pos hmem⟩
  · intro v hv
    obtain ⟨r, hr, hf⟩ := mem_optionsOf.mp hv
    exact ⟨r, hr, hf, mem_availableRecords_pos hr⟩
  · intro v hv
    obtain ⟨r, hr, hf⟩ := mem_optionsOf.mp hv
    have hmem : r ∈ availableRecords raw := scopeDistrict_subset r hr
    exact ⟨r, hmem, hf, mem_availableRecords_pos hmem⟩
  · intro v hv
    obtain ⟨r, hr, hf⟩ := mem_optionsOf.mp hv
    have hmem : r ∈ availableRecords raw := scopeVenue_subset r hr
    exact ⟨r, hmem, hf, mem_availableRecords_pos hmem⟩
  · intro v hv
    obtain ⟨r, hr, hf⟩ := mem_optionsOf.mp hv
    have hmem : r ∈ availableRecords raw := scopeDate_subset r hr
    exact ⟨r, hmem, hf, mem_availableRecords_pos hmem⟩

/-- C7 witness: the parsed V1 row of the scenario is an available record and
has a positive count. -/
theorem zero_availability_prefilter_amended_witness :
    scenarioRec1 ∈ availableRecords scenarioRaw ∧ 0 < scenarioRec1.Available_Courts :=
  ⟨by decide,
    (zero_availability_prefilter_amended scenarioRaw [] [] [] []).1 scenarioRec1 (by decide)⟩

/-- Pruning the venue default against the venue options it was taken from
changes nothing. -/
theorem multiselect_default_venues (opts : List String) :
    multiselect opts (default_venues opts) = default_venues opts := by
  unfold default_venues
  split
  · exact multiselect_of_subset fun v hv => List.take_subset 3 opts hv
  · rfl

/-- Pruning the date default against the date options it was taken from
changes nothing. -/
theorem multiselect_default_dates (opts : List String) :
    multiselect opts (default_dates opts) = default_dates opts := by
  unfold default_dates
  split
  · exact multiselect_of_subset fun v hv => List.take_subset 5 opts hv
  · rfl

/-- The district option list a default funnel pass displays. -/
theorem defaultFunnel_all_districts (a : List Record) :
    (defaultFunnel a).all_districts = all_districts a := by
  simp only [defaultFunnel, computeFunnel]

/-- The district selection a default funnel pass holds. -/
theorem defaultFunnel_selected_districts (a : List Record) :
    (defaultFunnel a).selected_districts
      = multiselect (all_districts a) (default_districts (all_districts a)) := by
  simp only [defaultFunnel, computeFunnel, selected_districts]

/-- The venue option list a default funnel pass displays. -/
theorem defaultFunnel_venue_options (a : List Record) :
    (defaultFunnel a).venue_options
      = venue_options a (default_districts (all_districts a)) := by
  simp only [defaultFunnel, computeFunnel]

/-- The venue selection a default funnel pass holds. -/
theorem defaultFunnel_selected_venues (a : List Record) :
    (defaultFunnel a).selected_venues
      = multiselect (venue_options a (default_districts (all_districts a)))
          (default_venues (venue_options a (default_districts (all_districts a)))) := by
  simp only [defaultFunnel, computeFunnel, selected_venues]

/-- The date option list a default funnel pass displays. -/
theorem defaultFunnel_date_options (a : List Record) :
    (defaultFunnel a).date_options
      = date_options a (default_districts (all_districts a))
          (default_venues (venue_options a (default_districts (all_districts a)))) := by
  simp only [defaultFunnel, computeFunnel]

/-- The date selection a default funnel pass holds. -/
theorem defaultFunnel_selected_dates (a : List Record) :
    (defaultFunnel a).selected_dates
      = multiselect
          (date_options a (default_districts (all_districts a))
            (default_venues (venue_options a (default_districts (all_districts a)))))
          (default_dates
            (date_options a (default_districts (all_districts a))
              (default_venues (venue_options a (default_districts (all_districts a)))))) := by
  simp only [defaultFunnel, computeFunnel, selected_dates]

/-- The time option list a default funnel pass displays. -/
theorem defaultFunnel_time_options (a : List Record) :
    (defaultFunnel a).time_options
      = time_options a (default_districts (all_districts a))
          (default_venues (venue_options a (default_districts (all_districts a))))
          (default_dates
            (date_options a (default_districts (all_districts a))
              (default_venues (venue_options a (default_districts (all_districts a)))))) := by
  simp only [defaultFunnel, computeFunnel]

/-- The time selection a default funnel pass holds. -/
theorem defaultFunnel_selected_times (a : List Record) :
    (defaultFunnel a).selected_times
      = multiselect
          (time_options a (default_districts (all_districts a))
            (default_venues (venue_options a (default_districts (all_districts a))))
            (default_dates
              (date_options a (default_districts (all_districts a))
                (default_venues (venue_options a (default_districts (all_districts a)))))))
          (default_times
            (time_options a (default_districts (all_districts a))
              (default_venues (venue_options a (default_districts (all_districts a))))
              (default_dates
                (date_options a (default_districts (all_districts a))
                  (default_venues
                    (venue_options a (default_districts (all_districts a)))))))) := by
  simp only [defaultFunnel, computeFunnel, selected_times]

/-- Pruning a list of options against itself changes nothing. -/
theorem multiselect_self (opts : List String) : multiselect opts opts = opts :=
  multiselect_of_subset fun _ hv => hv

/-- The time default is the whole option list. -/
theorem default_times_eq (opts : List String) : default_times opts = opts := rfl

set_option maxHeartbeats 1600000 in
/-- C8 counterexample: the claim says each subsequent dimension defaults to all
of its computed options when the option count is small, otherwise to the empty
selection.  With four venue options the code's default `venue_options[:3]` is
the first three options — neither all four options nor empty — so the claim
fails whichever way four counts as small. -/
theorem default_selection_counterexample :
    ¬((defaultFunnel exFourVenues).selected_venues = (defaultFunnel exFourVenues).venue_options
      ∨ (defaultFunnel exFourVenues).selected_venues = []) := by
  decide

/-- C8 amended: the district level defaults to the first of its available
options; the venue level defaults to the first three of its computed options
when there are at most five, otherwise to the empty selection; the date level
defaults to the first five of its computed options when there are at most ten,
otherwise to the empty selection; the time level defaults to all of its
computed options. -/
theorem default_selection_amended (available : List Record) :
    (defaultFunnel available).selected_districts = (defaultFunnel available).all_districts.take 1
  ∧ (defaultFunnel available).selected_venues
      = (if (defaultFunnel available).venue_options.length ≤ 5
          then (defaultFunnel available).venue_options.take 3 else [])
  ∧ (defaultFunnel available).selected_dates
      = (if (defaultFunnel available).date_options.length ≤ 10
          then (defaultFunnel available).date_options.take 5 else [])
  ∧ (defaultFunnel available).selected_times = (defaultFunnel available).time_options := by
  refine ⟨?_, ?_, ?_, ?_⟩
  · rw [defaultFunnel_selected_districts, defaultFunnel_all_districts]
    exact multiselect_of_subset fun v hv => List.take_subset 1 (all_districts available) hv
  · rw [defaultFunnel_selected_venues, defaultFunnel_venue_options, multiselect_default_venues]
    rfl
  · rw [defaultFunnel_selected_dates, defaultFunnel_date_options, multiselect_default_dates]
    rfl
  · rw [defaultFunnel_selected_times, defaultFunnel_time_options, default_times_eq,
      multiselect_self]

/-- C9: extract_records is total over arbitrary JSON values — null, booleans,
numbers and strings yield the empty list, and an object all of whose
RESPONSE_KEYS bindings hold non-list values yields the empty list; being a
total function, it never raises. -/
theorem extract_records_total :
    extract_records Json.null = []
  ∧ (∀ b, extract_records (Json.bool b) = [])
  ∧ (∀ n, extract_records (Json.num n) = [])
  ∧ (∀ s, extract_records (Json.str s) = [])
  ∧ (∀ kvs, (∀ k v, (k, v) ∈ kvs → k ∈ RESPONSE_KEYS → asList v = none) →
        extract_records (Json.obj kvs) = []) := by
  refine ⟨rfl, fun b => rfl, fun n => rfl, fun s => rfl, ?_⟩
  intro kvs h
  show ((RESPONSE_KEYS.findSome? fun k => (lookupJ kvs k).bind asList)).getD [] = []
  rw [findSome_eq_none]
  · rfl
  · intro k hk
    cases hl : lookupJ kvs k with
    | none => rfl
    | some v =>
        show asList v = none
        exact h k v (lookupJ_mem hl) hk

/-- C9 witness: an object whose only RESPONSE_KEYS binding holds a number
extracts to the empty list. -/
theorem extract_records_total_witness :
    (∀ k v, (k, v) ∈ exTotal → k ∈ RESPONSE_KEYS → asList v = none)
  ∧ extract_records (Json.obj exTotal) = [] := by
  have h : ∀ k v, (k, v) ∈ exTotal → k ∈ RESPONSE_KEYS → asList v = none := by
    intro k v hkv _
    simp only [exTotal, List.mem_cons, List.not_mem_nil, or_false, Prod.mk.injEq] at hkv
    rcases hkv with ⟨rfl, rfl⟩ | ⟨rfl, rfl⟩ <;> rfl
  exact ⟨h, extract_records_total.2.2.2.2 exTotal h⟩

/-- C10: strict positivity of the funnel input — every record entering the
funnel, and hence every filtered record, has an integer count of at least 1,
and any record with a non-positive (zero or negative) count is excluded from
the available frame. -/
theorem funnel_strict_positivity (raw : List Json) (sD sV sDa sT : List String) :
    (∀ r ∈ availableRecords raw, 1 ≤ r.Available_Courts)
  ∧ (∀ r ∈ (computeFunnel (availableRecords raw) sD sV sDa sT).filtered_df,
        1 ≤ r.Available_Courts)
  ∧ (∀ r : Record, r.Available_Courts ≤ 0 → r ∉ availableRecords raw) := by
  refine ⟨?_, ?_, ?_⟩
  · intro r hr
    have := mem_availableRecords_pos hr
    omega
  · intro r hr
    have hmem : r ∈ availableRecords raw :=
      condFilter_subset r (condFilter_subset r (condFilter_subset r (condFilter_subset r hr)))
    have := mem_availableRecords_pos hmem
    omega
  · intro r hneg hr
    have := mem_availableRecords_pos hr
    omega

/-- C10 witness: the row whose count string parses to -3 is excluded from the
available frame exactly like a zero-count row. -/
theorem funnel_strict_positivity_witness :
    exNegRec.Available_Courts ≤ 0 ∧ exNegRec ∉ availableRecords exNegRaw :=
  ⟨by decide, (funnel_strict_positivity exNegRaw [] [] [] []).2.2 exNegRec (by decide)⟩

end Tennis
